import Mathlib

/-!
Verification development for the Fluent geometry loader
(pyNastran/converters/fluent/fluent_io.py).

The loader pipeline is embedded shallowly:
  * pure numpy array manipulation becomes List manipulation over exact
    rationals (numpy float64 values are modelled as real-valued rationals);
  * `assert` statements become an `Except LoadError` result, where the
    error constructor records which ids the assertion message names
    (a bare `assert cond` names nothing);
  * GUI/VTK side effects (logging, actor updates) carry no data relevant
    to the specification and are dropped; the data handed to the renderer
    and to the results sidebar is returned as an explicit output record.

Collaborator functions that are called by fluent_io.py but whose code is
not part of src/ (the Fluent reader model methods, the vtk offset-array
helpers, the unit-conversion utilities, the GuiResult/NormalResult
classes) are modelled from the specification; each such definition has a
doc comment starting with "Modelled from the spec:".
-/

/-- A 3-d coordinate / vector with exact rational components
(numpy float64 modelled as real-valued). -/
structure Vec3 where
  x : ℚ
  y : ℚ
  z : ℚ
deriving DecidableEq

def Vec3.add (a b : Vec3) : Vec3 := ⟨a.x + b.x, a.y + b.y, a.z + b.z⟩

def Vec3.sub (a b : Vec3) : Vec3 := ⟨a.x - b.x, a.y - b.y, a.z - b.z⟩

def Vec3.smul (c : ℚ) (v : Vec3) : Vec3 := ⟨c * v.x, c * v.y, c * v.z⟩

def Vec3.cross (a b : Vec3) : Vec3 :=
  ⟨a.y * b.z - a.z * b.y, a.z * b.x - a.x * b.z, a.x * b.y - a.y * b.x⟩

def Vec3.zero : Vec3 := ⟨0, 0, 0⟩

/-- A triangle face row of the Fluent model: `tris` has 5 columns
`[element_id, region, n1, n2, n3]` (fluent_io.py asserts
`tris.shape[1] == 5` and slices the nodes as `tris[:, 2:]`). -/
structure TriFace where
  eid : Nat
  region : Int
  n1 : Nat
  n2 : Nat
  n3 : Nat
deriving DecidableEq

/-- A quadrilateral face row: `quads` has 6 columns
`[element_id, region, n1, n2, n3, n4]` (`quads.shape[1] == 6`,
nodes are `quads[:, 2:]`). -/
structure QuadFace where
  eid : Nat
  region : Int
  n1 : Nat
  n2 : Nat
  n3 : Nat
  n4 : Nat
deriving DecidableEq

def TriFace.nodes (t : TriFace) : List Nat := [t.n1, t.n2, t.n3]

def QuadFace.nodes (q : QuadFace) : List Nat := [q.n1, q.n2, q.n3, q.n4]

/-- The in-memory Fluent model produced by the external reader
(`read_fluent`): node ids, node coordinates (aligned with `node_id`),
declared field titles, the two face tables, and the 2-d results array,
whose rows are aligned to the pre-filter element ordering
(quadrilaterals first, then triangles) and whose columns are aligned to
the declared titles minus the reserved first title. -/
structure FluentModel where
  node_id : List Nat
  xyz : List Vec3
  titles : List String
  tris : List TriFace
  quads : List QuadFace
  results : List (List ℚ)
deriving DecidableEq

/-- Errors raised by the load pipeline.  Each Python `assert cond, msg`
becomes a constructor; a constructor carries a list of node ids exactly
when the corresponding assertion message names ids. -/
inductive LoadError where
  /-- `assert len(node_id) == len(np.unique(node_id))` in
  `load_fluent_geometry` — a bare assert, its message names no ids. -/
  | duplicateNodeIds : LoadError
  /-- `np.min` over an empty array raises a ValueError. -/
  | emptyArrayMin : LoadError
  /-- `assert node_id.min() >= 1` / `assert all_nodes.min() >= 1`:
  the message is the offending minimum. -/
  | nonPositiveMin (m : Nat) : LoadError
  /-- `assert len(missing_nodes) == 0, missing_nodes`: the message
  names the missing node ids. -/
  | missingNodes (ids : List Nat) : LoadError
  /-- a length-consistency assert between the element-id array and the
  region array or an imported result column. -/
  | fieldLengthMismatch (neids nother : Nat) : LoadError
deriving DecidableEq

/-- The node ids named by the message of a raised error. -/
def LoadError.namedIds : LoadError → List Nat
  | .missingNodes ids => ids
  | _ => []

/-- The packed mixed-cell connectivity handed to the unstructured-grid
renderer: per-cell node counts, per-cell shape-type codes, per-cell
cumulative offsets, and the flat local-node-index buffer. -/
structure Packed where
  node_counts : List Nat
  cell_types : List Nat
  cell_offsets : List Nat
  flat_node_indices : List Nat
deriving DecidableEq

/-- The node-id to local-0-based-index lookup over the ordered node set. -/
def localIndex (node_id : List Nat) (nid : Nat) : Nat := node_id.indexOf nid

/-- `np.unique`: the distinct values of a list.  (numpy additionally
returns them sorted; the pipeline only uses membership, emptiness and
the minimum of the result, all of which are order-independent, so the
first-occurrence order of `List.dedup` is kept.) -/
def npUnique (l : List Nat) : List Nat := l.dedup

/-- Running cumulative sums of a list: `cumSum [a, b, c] = [a, a+b, a+b+c]`. -/
def cumSum : List Nat → List Nat
  | [] => []
  | c :: cs => c :: (cumSum cs).map (fun s => c + s)

/-- The cumulative offset stream for a block of per-cell node counts,
continuing from a running prior total `off0`. -/
def offsetsOfCounts (off0 : Nat) (counts : List Nat) : List Nat :=
  (cumSum counts).map (fun s => off0 + s)

/-- Modelled from the spec: `create_offset_arrays`
(pyNastran.gui.utils.vtk.vectorized_geometry, not in src/).  For one
shape group with `nelement` elements of `dnode` nodes each it emits, per
element, the constant node count `dnode` together with the local node
indices (raw ids translated through the node-id lookup), `nelement`
copies of the constant shape-type code, and a running cumulative offset
sequence in which each entry is the prior cumulative total plus `dnode`,
continuing from `cell_offset0`; the updated running total is returned
first. -/
def create_offset_arrays (node_id : List Nat) (elem_nodes : List (List Nat))
    (nelement cell_type cell_offset0 dnode : Nat) :
    Nat × List (Nat × List Nat) × List Nat × List Nat :=
  ( cell_offset0 + nelement * dnode
  , elem_nodes.map (fun ns => (dnode, ns.map (localIndex node_id)))
  , List.replicate nelement cell_type
  , offsetsOfCounts cell_offset0 (List.replicate nelement dnode) )

/-- Modelled from the spec: `build_vtk_geometry`
(pyNastran.gui.utils.vtk.vectorized_geometry, not in src/).  Assembles
the renderer ingestion contract: the per-element (node-count, node
indices) records are split into the parallel node-count array and the
flat node-index buffer, alongside the cell-type and cumulative-offset
arrays. -/
def build_vtk_geometry (n_nodes : List (Nat × List Nat))
    (cell_type : List Nat) (cell_offset : List Nat) : Packed :=
  { node_counts := n_nodes.map Prod.fst
  , cell_types := cell_type
  , cell_offsets := cell_offset
  , flat_node_indices := n_nodes.flatMap Prod.snd }

/-- Modelled from the spec: the region-filter predicate.  If
`regions_to_include` is non-empty, a face is kept exactly when its
region tag is in that list and `regions_to_remove` is ignored; else if
`regions_to_remove` is non-empty, a face is kept exactly when its tag is
not in that list; else every face is kept. -/
def keepRegion (r : Int) (regions_to_remove regions_to_include : List Int) : Bool :=
  if regions_to_include ≠ [] then decide (r ∈ regions_to_include)
  else if regions_to_remove ≠ [] then decide (r ∉ regions_to_remove)
  else true

/-- Modelled from the spec: the Region Filter
`filter(faces, regions_to_remove, regions_to_include)` over one shape
group — a stable filter by `keepRegion` preserving the original
relative order of the surviving faces. -/
def filterFaces {α : Type} (region : α → Int) (faces : List α)
    (regions_to_remove regions_to_include : List Int) : List α :=
  faces.filter (fun f => keepRegion (region f) regions_to_remove regions_to_include)

/-- Modelled from the spec: `Fluent.get_filtered_data`
(pyNastran.converters.fluent.fluent, not in src/).  Applies the region
filter to each shape group (stable, rows of the results array ride
along with their faces), then forms the single element-id array by
concatenating quadrilateral ids then triangle ids; the region array and
the filtered result rows follow the same quads-then-triangles
concatenation order. -/
def get_filtered_data (model : FluentModel)
    (regions_to_remove regions_to_include : List Int) :
    List Nat × List TriFace × List QuadFace × List Int × List (List ℚ) :=
  let quadRows := model.results.take model.quads.length
  let triRows := model.results.drop model.quads.length
  let keptQuads := (model.quads.zip quadRows).filter
    (fun p => keepRegion p.1.region regions_to_remove regions_to_include)
  let keptTris := (model.tris.zip triRows).filter
    (fun p => keepRegion p.1.region regions_to_remove regions_to_include)
  let quads := keptQuads.map Prod.fst
  let tris := keptTris.map Prod.fst
  let element_id := quads.map QuadFace.eid ++ tris.map TriFace.eid
  let region := quads.map QuadFace.region ++ tris.map TriFace.region
  let results := keptQuads.map Prod.snd ++ keptTris.map Prod.snd
  (element_id, tris, quads, region, results)

/-- Coordinate lookup for a raw node id: the coordinate row at the local
index of the id in the ordered node set. -/
def coordOf (model : FluentModel) (nid : Nat) : Vec3 :=
  model.xyz.getD (localIndex model.node_id nid) Vec3.zero

/-- The edge cross product of a triangle, anchored at its first vertex. -/
def triCross (coord : Nat → Vec3) (t : TriFace) : Vec3 :=
  Vec3.cross ((coord t.n2).sub (coord t.n1)) ((coord t.n3).sub (coord t.n1))

/-- The summed cross product of the two triangles a quadrilateral is
split into along the n1-n3 diagonal. -/
def quadCross (coord : Nat → Vec3) (q : QuadFace) : Vec3 :=
  Vec3.add
    (Vec3.cross ((coord q.n2).sub (coord q.n1)) ((coord q.n3).sub (coord q.n1)))
    (Vec3.cross ((coord q.n3).sub (coord q.n1)) ((coord q.n4).sub (coord q.n1)))

/-- Triangle area: half the cross-product magnitude.  `mag` is the
vector-magnitude function (a real-valued square root), abstracted as a
parameter; no claim under verification depends on its values. -/
def triArea (mag : Vec3 → ℚ) (coord : Nat → Vec3) (t : TriFace) : ℚ :=
  mag (triCross coord t) / 2

/-- Triangle centroid: the arithmetic mean of the three node coordinates. -/
def triCentroid (coord : Nat → Vec3) (t : TriFace) : Vec3 :=
  Vec3.smul (1 / 3) (Vec3.add (Vec3.add (coord t.n1) (coord t.n2)) (coord t.n3))

/-- Triangle unit normal: the edge cross product normalized by its
magnitude, oriented by the input winding order. -/
def triNormal (mag : Vec3 → ℚ) (coord : Nat → Vec3) (t : TriFace) : Vec3 :=
  Vec3.smul (1 / mag (triCross coord t)) (triCross coord t)

/-- Quadrilateral area: half the magnitude of the summed diagonal-split
cross product. -/
def quadArea (mag : Vec3 → ℚ) (coord : Nat → Vec3) (q : QuadFace) : ℚ :=
  mag (quadCross coord q) / 2

/-- Quadrilateral centroid: the arithmetic mean of the four node
coordinates. -/
def quadCentroid (coord : Nat → Vec3) (q : QuadFace) : Vec3 :=
  Vec3.smul (1 / 4)
    (Vec3.add (Vec3.add (Vec3.add (coord q.n1) (coord q.n2)) (coord q.n3)) (coord q.n4))

/-- Quadrilateral unit normal, same winding convention as triangles. -/
def quadNormal (mag : Vec3 → ℚ) (coord : Nat → Vec3) (q : QuadFace) : Vec3 :=
  Vec3.smul (1 / mag (quadCross coord q)) (quadCross coord q)

/-- Modelled from the spec: `Fluent.get_area_centroid_normal`
(pyNastran.converters.fluent.fluent, not in src/).  Computes per-face
area, centroid and normal for each shape group independently, returning
the 6-tuple `(tri_area, quad_area, tri_centroid, quad_centroid,
tri_normal, quad_normal)` as unpacked at the call site. -/
def get_area_centroid_normal (mag : Vec3 → ℚ) (coord : Nat → Vec3)
    (tris : List TriFace) (quads : List QuadFace) :
    List ℚ × List ℚ × List Vec3 × List Vec3 × List Vec3 × List Vec3 :=
  ( tris.map (triArea mag coord)
  , quads.map (quadArea mag coord)
  , tris.map (triCentroid coord)
  , quads.map (quadCentroid coord)
  , tris.map (triNormal mag coord)
  , quads.map (quadNormal mag coord) )

/-- Modelled from the spec: `convert_length`
(pyNastran.utils.convert, not in src/).  Rescales every coordinate by
the fixed factor attached to the (source, target) unit-name pair; the
numeric factor table is abstracted as the parameter `lengthFactor`
since no claim under verification depends on its values. -/
def convert_length (lengthFactor : String → String → ℚ)
    (xyz : List Vec3) (src tgt : String) : List Vec3 :=
  xyz.map (fun v => Vec3.smul (lengthFactor src tgt) v)

/-- Modelled from the spec: `convert_pressure`
(pyNastran.utils.convert, not in src/), applied to a 1-d column:
elementwise rescale by the fixed factor for the unit-name pair. -/
def convert_pressure (pressureFactor : String → String → ℚ)
    (vals : List ℚ) (src tgt : String) : List ℚ :=
  vals.map (fun v => pressureFactor src tgt * v)

/-- The numpy column read `results[:, 0]`. -/
def column0 (rows : List (List ℚ)) : List ℚ :=
  rows.map (fun row => row.headD 0)

/-- The numpy in-place column write `results[:, 0] = vals`. -/
def writeColumn0 (rows : List (List ℚ)) (vals : List ℚ) : List (List ℚ)  :=
  List.zipWith (fun v row => v :: row.tail) vals rows

/-- The numpy column read `results[:, i]` (the rows are a rectangular
2-d array, so every row has the same width). -/
def resultsColumn (i : Nat) (rows : List (List ℚ)) : List ℚ :=
  rows.map (fun row => row.getD i 0)

/-- `_create_elements` (fluent_io.py lines 121-173): validates node ids
eagerly, then packs the quadrilateral group followed by the triangle
group into the renderer buffers.  The shape asserts
(`tris.shape[1] == 5`, `quads.shape[1] == 6` and the node-slice widths)
hold structurally for the typed face rows.  `np.min` raises on an empty
array, embedded through `List.min?`.  `np.hstack` of the per-group
arrays raises only when both groups are empty, which the
`all_nodes.min()` call has already turned into an error, so a plain
append is exact. -/
def _create_elements (node_id : List Nat)
    (tris : List TriFace) (quads : List QuadFace) :
    Except LoadError Packed :=
  let nquad := quads.length
  let ntri := tris.length
  let tri_nodes := tris.map TriFace.nodes
  let quad_nodes := quads.map QuadFace.nodes
  match node_id.min? with
  | none => .error .emptyArrayMin
  | some m =>
    if m < 1 then .error (.nonPositiveMin m)
    else
      let all_nodes := npUnique (tri_nodes.flatten ++ quad_nodes.flatten)
      match all_nodes.min? with
      | none => .error LoadError.emptyArrayMin
      | some ma =>
        if ma < 1 then .error (.nonPositiveMin ma)
        else
          let missing_nodes := all_nodes.filter (fun n => decide (n ∉ node_id))
          if missing_nodes ≠ [] then .error (.missingNodes missing_nodes)
          else
            let quadOut :=
              if 0 < nquad then create_offset_arrays node_id quad_nodes nquad 9 0 4
              else (0, [], [], [])
            let triOut :=
              if 0 < ntri then create_offset_arrays node_id tri_nodes ntri 5 quadOut.1 3
              else (quadOut.1, [], [], [])
            .ok (build_vtk_geometry (quadOut.2.1 ++ triOut.2.1)
              (quadOut.2.2.1 ++ triOut.2.2.1) (quadOut.2.2.2 ++ triOut.2.2.2))

/-- Whether a result field is bound to the nodes or to the cells
(GuiResult location "node" / "centroid"). -/
inductive Binding where
  | node : Binding
  | centroid : Binding
deriving DecidableEq

/-- The scalar payload of a catalog entry. -/
inductive FieldData where
  | natData (vals : List Nat) : FieldData
  | intData (vals : List Int) : FieldData
  | ratData (vals : List ℚ) : FieldData
  /-- the composite NormalResult display entry carries no scalar array. -/
  | noData : FieldData
deriving DecidableEq

/-- One entry of the sidebar field catalog: the `form`/`cases` pair of
`_fill_fluent_case` is built in lockstep at the same `icase` positions,
so it is embedded as a single ordered list of (name, binding, values)
entries, the name being the `form` label. -/
structure CatalogEntry where
  name : String
  binding : Binding
  values : FieldData
deriving DecidableEq

/-- Modelled from the spec: `NormalResult`
(pyNastran.gui.gui_objects.gui_result, not in src/) — the composite
normal magnitude/direction display entry of the normal-vector bundle, a
derived per-element field, hence cell(centroid)-bound, with no scalar
array of its own. -/
def normalResultEntry : CatalogEntry :=
  { name := "Normal", binding := Binding.centroid, values := FieldData.noData }

/-- The `for i, title in enumerate(titles[1:])` loop of
`_fill_fluent_case`: imported column `i` is paired with title `i+1`;
each column length is checked against the element-id array
(`assert len(element_ids) == len(result)`, a bare assert). -/
def importedEntries (element_ids : List Nat) (results : List (List ℚ)) :
    Nat → List String → Except LoadError (List CatalogEntry)
  | _, [] => .ok []
  | i, title :: rest =>
    let result := resultsColumn i results
    if element_ids.length = result.length then
      match importedEntries element_ids results (i + 1) rest with
      | .ok es =>
        .ok ({ name := title, binding := Binding.centroid,
               values := FieldData.ratData result } :: es)
      | .error e => .error e
    else .error (.fieldLengthMismatch element_ids.length result.length)

/-- `_fill_fluent_case` (fluent_io.py lines 175-247): assembles the
ordered field catalog — NodeID (node-bound), ElementID, Region, the
normal bundle (composite entry then the three components), Nnodes, then
one entry per imported title starting from the second declared title. -/
def _fill_fluent_case (node_ids : List Nat) (element_ids : List Nat)
    (region : List Int) (results : List (List ℚ)) (titles : List String)
    (normal : List Vec3) (nnodes_array : List ℚ) :
    Except LoadError (List CatalogEntry) :=
  let nid_res : CatalogEntry :=
    { name := "NodeID", binding := Binding.node, values := FieldData.natData node_ids }
  let eid_res : CatalogEntry :=
    { name := "ElementID", binding := Binding.centroid,
      values := FieldData.natData element_ids }
  let region_res : CatalogEntry :=
    { name := "Region", binding := Binding.centroid, values := FieldData.intData region }
  let nxyz_res : CatalogEntry := normalResultEntry
  let nx_res : CatalogEntry :=
    { name := "NormalX", binding := Binding.centroid,
      values := FieldData.ratData (normal.map Vec3.x) }
  let ny_res : CatalogEntry :=
    { name := "NormalY", binding := Binding.centroid,
      values := FieldData.ratData (normal.map Vec3.y) }
  let nz_res : CatalogEntry :=
    { name := "NormalZ", binding := Binding.centroid,
      values := FieldData.ratData (normal.map Vec3.z) }
  let nnodes_res : CatalogEntry :=
    { name := "Nnodes", binding := Binding.centroid,
      values := FieldData.ratData nnodes_array }
  if element_ids.length ≠ region.length then
    .error (.fieldLengthMismatch element_ids.length region.length)
  else
    match importedEntries element_ids results 0 (titles.drop 1) with
    | .ok imported =>
      .ok ([nid_res, eid_res, region_res, nxyz_res,
            nx_res, ny_res, nz_res, nnodes_res] ++ imported)
    | .error e => .error e

/-- The data produced by one successful load: the converted node
coordinates and the packed geometry handed to the renderer, the field
catalog handed to the sidebar, and the derived per-filtered-element
arrays of `load_fluent_geometry` (surfaced so their layout can be
specified). -/
structure LoadOutput where
  nodes : List Vec3
  element_id : List Nat
  region : List Int
  area : List ℚ
  centroid : List Vec3
  normal : List Vec3
  nnodes_array : List ℚ
  results : List (List ℚ)
  packed : Packed
  catalog : List CatalogEntry
deriving DecidableEq

/-- `load_fluent_geometry` (fluent_io.py lines 30-119), data flow only:
filter by region, derive per-shape geometry and stack it quads-first,
convert units (length m to in on the coordinates, pressure Pa to psi on
result column 0, unconditionally under `if 1:`), check the element / 
region lengths and node-id uniqueness, pack the connectivity, and
assemble the field catalog.  The logging, vtk-actor and settings-lookup
statements carry no pipeline data; the two filter lists, read by the
caller from the settings object, are explicit parameters here. -/
def load_fluent_geometry (lengthFactor pressureFactor : String → String → ℚ)
    (mag : Vec3 → ℚ)
    (regions_to_remove regions_to_include : List Int)
    (model : FluentModel) : Except LoadError LoadOutput :=
  let node_id := model.node_id
  let filt := get_filtered_data model regions_to_remove regions_to_include
  let element_id := filt.1
  let tris := filt.2.1
  let quads := filt.2.2.1
  let region := filt.2.2.2.1
  let results0 := filt.2.2.2.2
  let coord := coordOf model
  let acn := get_area_centroid_normal mag coord tris quads
  let tri_area := acn.1
  let quad_area := acn.2.1
  let tri_centroid := acn.2.2.1
  let quad_centroid := acn.2.2.2.1
  let tri_normal := acn.2.2.2.2.1
  let quad_normal := acn.2.2.2.2.2
  let normal := quad_normal ++ tri_normal
  let centroid := quad_centroid ++ tri_centroid
  let area := quad_area ++ tri_area
  let nnodes_array :=
    quad_area.map (fun a => a * 0 + 4) ++ tri_area.map (fun a => a * 0 + 3)
  let nodes := convert_length lengthFactor model.xyz "m" "in"
  let results :=
    writeColumn0 results0 (convert_pressure pressureFactor (column0 results0) "Pa" "psi")
  if element_id.length ≠ region.length then
    .error (.fieldLengthMismatch element_id.length region.length)
  else if (npUnique node_id).length ≠ node_id.length then
    .error LoadError.duplicateNodeIds
  else
    match _create_elements node_id tris quads with
    | .error e => .error e
    | .ok packed =>
      match _fill_fluent_case node_id element_id region results model.titles
          normal nnodes_array with
      | .error e => .error e
      | .ok catalog =>
        .ok { nodes := nodes, element_id := element_id, region := region,
              area := area, centroid := centroid, normal := normal,
              nnodes_array := nnodes_array, results := results,
              packed := packed, catalog := catalog }

/-- A placeholder catalog entry for positional `getD` reads. -/
def dummyEntry : CatalogEntry :=
  { name := "", binding := Binding.centroid, values := FieldData.noData }

/-- A placeholder load output for total extraction from `Except`. -/
def emptyOutput : LoadOutput :=
  { nodes := [], element_id := [], region := [], area := [], centroid := []
  , normal := [], nnodes_array := [], results := []
  , packed := { node_counts := [], cell_types := [], cell_offsets := []
              , flat_node_indices := [] }
  , catalog := [] }

/-- A constant unit-conversion factor table used to instantiate the
abstract factor parameters at concrete inputs. -/
def oneFactor : String → String → ℚ := fun _ _ => 1

/-- A constant magnitude function used to instantiate the abstract
magnitude parameter at concrete inputs. -/
def oneMag : Vec3 → ℚ := fun _ => 1

/-- Concrete scenario of the spec: two quadrilaterals (all in region 1). -/
def exQuads : List QuadFace := [⟨1, 1, 1, 2, 3, 4⟩, ⟨2, 1, 2, 3, 4, 5⟩]

/-- Concrete scenario of the spec: three triangles (all in region 1). -/
def exTris : List TriFace := [⟨3, 1, 1, 2, 3⟩, ⟨4, 1, 2, 3, 4⟩, ⟨5, 1, 3, 4, 5⟩]

/-- Node ids 1..5 for the concrete packing scenario. -/
def exNodeIds : List Nat := [1, 2, 3, 4, 5]

/-- The packed output of the concrete 2-quad / 3-triangle scenario. -/
def exPacked : Packed :=
  match _create_elements exNodeIds exTris exQuads with
  | .ok p => p
  | .error _ => { node_counts := [], cell_types := [], cell_offsets := []
                , flat_node_indices := [] }

/-- A face table whose single triangle references node id 999 while the
node set holds only ids 1..10 (missing-node scenario of the spec). -/
def badTris : List TriFace := [⟨1, 1, 1, 2, 999⟩]

/-- Node ids 1..10 for the missing-node scenario. -/
def tenNodeIds : List Nat := [1, 2, 3, 4, 5, 6, 7, 8, 9, 10]

/-- A model whose node-id array holds the duplicate id 1, otherwise
shaped per the documented reader interface: the reserved first title
plus one imported title (so the results array has one column), no
faces and hence zero result rows (a (0,1) array, on which the column-0
pressure rescale of line 68 is a valid empty-slice operation), and a
non-empty coordinate table.  The load therefore runs cleanly up to the
duplicate-id assert at line 92. -/
def dupModel : FluentModel :=
  { node_id := [1, 1]
  , xyz := [Vec3.zero, Vec3.zero]
  , titles := ["skip", "A"]
  , tris := []
  , quads := []
  , results := [] }

/-- A well-formed model (one quadrilateral then one triangle, two
declared titles, one imported results column) that loads successfully. -/
def okModel : FluentModel :=
  { node_id := [1, 2, 3, 4, 5]
  , xyz := [⟨0, 0, 0⟩, ⟨1, 0, 0⟩, ⟨1, 1, 0⟩, ⟨0, 1, 0⟩, ⟨2, 0, 0⟩]
  , titles := ["rho", "p"]
  , tris := [⟨2, 1, 2, 5, 3⟩]
  , quads := [⟨1, 1, 1, 2, 3, 4⟩]
  , results := [[10], [20]] }

/-- The output of the successful concrete load of `okModel`. -/
def okOut : LoadOutput :=
  match load_fluent_geometry oneFactor oneFactor oneMag [] [] okModel with
  | .ok o => o
  | .error _ => emptyOutput

/-- Concrete field-assembler inputs: one element, two imported titles
after the reserved first title, results row `[3, 5]`. -/
def exCatalog : List CatalogEntry :=
  match _fill_fluent_case [1] [7] [2] [[3, 5]] ["skip", "A", "B"]
      [⟨0, 0, 1⟩] [4] with
  | .ok c => c
  | .error _ => []

/-- The element-id array produced by `get_filtered_data` (projection of
the returned 5-tuple). -/
def filteredElementId (model : FluentModel) (rem inc : List Int) : List Nat :=
  (get_filtered_data model rem inc).1

/-- The filtered triangle table of `get_filtered_data`. -/
def filteredTris (model : FluentModel) (rem inc : List Int) : List TriFace :=
  (get_filtered_data model rem inc).2.1

/-- The filtered quadrilateral table of `get_filtered_data`. -/
def filteredQuads (model : FluentModel) (rem inc : List Int) : List QuadFace :=
  (get_filtered_data model rem inc).2.2.1

/-- The filtered region array of `get_filtered_data`. -/
def filteredRegion (model : FluentModel) (rem inc : List Int) : List Int :=
  (get_filtered_data model rem inc).2.2.2.1

/-- The filtered results rows of `get_filtered_data`. -/
def filteredResults (model : FluentModel) (rem inc : List Int) : List (List ℚ) :=
  (get_filtered_data model rem inc).2.2.2.2

/-- Concrete triangle faces in regions 1, 2, 1 for the region-filter
scenario. -/
def exC8Faces : List TriFace := [⟨1, 1, 1, 2, 3⟩, ⟨2, 2, 2, 3, 4⟩, ⟨3, 1, 3, 4, 5⟩]

deriving instance DecidableEq for Except

theorem getD_append_add {α : Type} (xs ys : List α) (i : Nat) (d : α) :
    (xs ++ ys).getD (xs.length + i) d = ys.getD i d := by
  induction xs with
  | nil => simp
  | cons a xs ih =>
    have h : (a :: xs).length + i = (xs.length + i) + 1 := by
      simp [Nat.succ_add, Nat.add_right_comm]
    rw [h, List.cons_append, List.getD_cons_succ, ih]

theorem cumSum_length (l : List Nat) : (cumSum l).length = l.length := by
  induction l with
  | nil => rfl
  | cons c cs ih => simp [cumSum, ih]

theorem cumSum_append (xs ys : List Nat) :
    cumSum (xs ++ ys) = cumSum xs ++ (cumSum ys).map (fun s => xs.sum + s) := by
  induction xs with
  | nil => simp [cumSum]
  | cons a xs ih =>
    simp [cumSum, ih, List.map_map, Function.comp_def, Nat.add_assoc]

theorem offsetsOfCounts_zero (counts : List Nat) :
    offsetsOfCounts 0 counts = cumSum counts := by
  simp [offsetsOfCounts]

theorem offsetsOfCounts_append (off0 : Nat) (xs ys : List Nat) :
    offsetsOfCounts off0 (xs ++ ys)
      = offsetsOfCounts off0 xs ++ offsetsOfCounts (off0 + xs.sum) ys := by
  simp [offsetsOfCounts, cumSum_append, List.map_map, Function.comp_def, Nat.add_assoc]

theorem cumSum_getD_sum (l : List Nat) (i : Nat) (h : i < l.length) :
    (cumSum l).getD i 0 = (l.take (i + 1)).sum := by
  induction l generalizing i with
  | nil => simp at h
  | cons c cs ih =>
    cases i with
    | zero => simp [cumSum]
    | succ j =>
      have hb : j < cs.length := by simpa using h
      have hb2 : j < ((cumSum cs).map (fun s => c + s)).length := by
        simpa [cumSum_length] using hb
      rw [show cumSum (c :: cs) = c :: (cumSum cs).map (fun s => c + s) from rfl]
      rw [List.getD_cons_succ]
      rw [List.getD_eq_getElem _ _ hb2, List.getElem_map]
      rw [← List.getD_eq_getElem (cumSum cs) 0 (by simpa [cumSum_length] using hb)]
      rw [ih j hb]
      simp [Nat.add_assoc]

theorem cumSum_getD_zero (l : List Nat) (h : l ≠ []) :
    (cumSum l).getD 0 0 = l.getD 0 0 := by
  cases l with
  | nil => exact absurd rfl h
  | cons c cs => rfl

theorem cumSum_getD_succ (l : List Nat) (i : Nat) (h : i + 1 < l.length) :
    (cumSum l).getD (i + 1) 0 = (cumSum l).getD i 0 + l.getD (i + 1) 0 := by
  rw [cumSum_getD_sum l (i + 1) h, cumSum_getD_sum l i (Nat.lt_of_succ_lt h)]
  rw [List.sum_take_succ l (i + 1) h]
  rw [List.getD_eq_getElem _ _ h]

theorem create_elements_ok {node_id : List Nat} {tris : List TriFace}
    {quads : List QuadFace} {p : Packed}
    (h : _create_elements node_id tris quads = .ok p) :
    p.node_counts = List.replicate quads.length 4 ++ List.replicate tris.length 3
  ∧ p.cell_types = List.replicate quads.length 9 ++ List.replicate tris.length 5
  ∧ p.cell_offsets
      = offsetsOfCounts 0
          (List.replicate quads.length 4 ++ List.replicate tris.length 3)
  ∧ p.flat_node_indices
      = (quads.map QuadFace.nodes).flatMap (fun ns => ns.map (localIndex node_id))
        ++ (tris.map TriFace.nodes).flatMap (fun ns => ns.map (localIndex node_id)) := by
  simp only [_create_elements] at h
  split at h
  · simp at h
  · split at h
    · simp at h
    · split at h
      · simp at h
      · split at h
        · simp at h
        · split at h
          · simp at h
          · injection h with h2
            subst h2
            rcases Nat.eq_zero_or_pos quads.length with hq | hq
            · rcases Nat.eq_zero_or_pos tris.length with ht | ht
              · rw [List.length_eq_zero] at hq ht
                subst hq; subst ht
                simp [build_vtk_geometry, create_offset_arrays, offsetsOfCounts, cumSum]
              · rw [List.length_eq_zero] at hq
                subst hq
                simp [build_vtk_geometry, create_offset_arrays, offsetsOfCounts,
                  List.map_map, Function.comp_def, Nat.lt_irrefl, ht,
                  List.flatMap_def]
            · rcases Nat.eq_zero_or_pos tris.length with ht | ht
              · rw [List.length_eq_zero] at ht
                subst ht
                simp [build_vtk_geometry, create_offset_arrays, offsetsOfCounts,
                  List.map_map, Function.comp_def, hq, List.flatMap_def]
              · simp [build_vtk_geometry, create_offset_arrays,
                  List.map_map, Function.comp_def, hq, ht, List.flatMap_def,
                  offsetsOfCounts_append, List.sum_replicate, smul_eq_mul]

theorem load_ok_fields {lf pf : String → String → ℚ} {mag : Vec3 → ℚ}
    {rem inc : List Int} {model : FluentModel} {out : LoadOutput}
    (h : load_fluent_geometry lf pf mag rem inc model = .ok out) :
    out.element_id = filteredElementId model rem inc
  ∧ out.region = filteredRegion model rem inc
  ∧ out.area
      = (filteredQuads model rem inc).map (quadArea mag (coordOf model))
        ++ (filteredTris model rem inc).map (triArea mag (coordOf model))
  ∧ out.centroid
      = (filteredQuads model rem inc).map (quadCentroid (coordOf model))
        ++ (filteredTris model rem inc).map (triCentroid (coordOf model))
  ∧ out.normal
      = (filteredQuads model rem inc).map (quadNormal mag (coordOf model))
        ++ (filteredTris model rem inc).map (triNormal mag (coordOf model))
  ∧ out.nnodes_array
      = ((filteredQuads model rem inc).map (quadArea mag (coordOf model))).map
          (fun a => a * 0 + 4)
        ++ ((filteredTris model rem inc).map (triArea mag (coordOf model))).map
          (fun a => a * 0 + 3)
  ∧ out.nodes = convert_length lf model.xyz "m" "in"
  ∧ out.results
      = writeColumn0 (filteredResults model rem inc)
          (convert_pressure pf (column0 (filteredResults model rem inc)) "Pa" "psi")
  ∧ _create_elements model.node_id (filteredTris model rem inc)
      (filteredQuads model rem inc) = .ok out.packed
  ∧ _fill_fluent_case model.node_id (filteredElementId model rem inc)
      (filteredRegion model rem inc) out.results model.titles out.normal
      out.nnodes_array = .ok out.catalog := by
  simp only [load_fluent_geometry] at h
  split at h
  · simp at h
  · split at h
    · simp at h
    · split at h
      · simp at h
      · next packed hpk =>
        split at h
        · simp at h
        · next catalog hcat =>
          injection h with h2
          subst h2
          simp only [filteredElementId, filteredTris, filteredQuads, filteredRegion,
            filteredResults, get_area_centroid_normal] at hpk hcat
          exact ⟨rfl, rfl, rfl, rfl, rfl, rfl, rfl, rfl, hpk, hcat⟩

theorem map_fst_filter_zip {α β : Type} (p : α → Bool) (l1 : List α) (l2 : List β)
    (h : l1.length ≤ l2.length) :
    ((l1.zip l2).filter (fun x => p x.1)).map Prod.fst = l1.filter p := by
  induction l1 generalizing l2 with
  | nil => simp
  | cons a l1 ih =>
    cases l2 with
    | nil => simp at h
    | cons b l2 =>
      have h2 : l1.length ≤ l2.length := by simpa using h
      by_cases hp : p a
      · simp [List.zip_cons_cons, List.filter_cons, hp, ih l2 h2]
      · simp [List.zip_cons_cons, List.filter_cons, hp, ih l2 h2]

theorem filteredQuads_eq (model : FluentModel) (rem inc : List Int)
    (halign : model.results.length = model.quads.length + model.tris.length) :
    filteredQuads model rem inc = filterFaces QuadFace.region model.quads rem inc := by
  simp only [filteredQuads, get_filtered_data, filterFaces]
  exact map_fst_filter_zip (fun q => keepRegion q.region rem inc) model.quads
    (model.results.take model.quads.length)
    (by simp [List.length_take]; omega)

theorem filteredTris_eq (model : FluentModel) (rem inc : List Int)
    (halign : model.results.length = model.quads.length + model.tris.length) :
    filteredTris model rem inc = filterFaces TriFace.region model.tris rem inc := by
  simp only [filteredTris, get_filtered_data, filterFaces]
  exact map_fst_filter_zip (fun t => keepRegion t.region rem inc) model.tris
    (model.results.drop model.quads.length)
    (by simp [List.length_drop]; omega)

theorem filteredElementId_eq (model : FluentModel) (rem inc : List Int) :
    filteredElementId model rem inc
      = (filteredQuads model rem inc).map QuadFace.eid
        ++ (filteredTris model rem inc).map TriFace.eid := by
  simp [filteredElementId, filteredQuads, filteredTris, get_filtered_data,
    List.map_map, Function.comp_def]

theorem filteredRegion_eq (model : FluentModel) (rem inc : List Int) :
    filteredRegion model rem inc
      = (filteredQuads model rem inc).map QuadFace.region
        ++ (filteredTris model rem inc).map TriFace.region := by
  simp [filteredRegion, filteredQuads, filteredTris, get_filtered_data,
    List.map_map, Function.comp_def]

theorem filtered_id_region_length (model : FluentModel) (rem inc : List Int) :
    (filteredElementId model rem inc).length = (filteredRegion model rem inc).length := by
  simp [filteredElementId, filteredRegion, get_filtered_data]

/-- Claim C8: with a non-empty include list, region filtering keeps
exactly the faces whose tag is in the include list, regardless of the
remove list; with both lists empty, all faces are kept in their
original order. -/
theorem claim_C8 {α : Type} (region : α → Int) (faces : List α)
    (rem inc : List Int) :
    (inc ≠ [] →
      filterFaces region faces rem inc
        = faces.filter (fun f => decide (region f ∈ inc)))
  ∧ filterFaces region faces [] [] = faces := by
  constructor
  · intro hne
    simp [filterFaces, keepRegion, hne]
  · simp [filterFaces, keepRegion]

theorem claim_C8_witness :
    filterFaces TriFace.region exC8Faces [3] [2]
      = exC8Faces.filter (fun f => decide (f.region ∈ ([2] : List Int)))
  ∧ filterFaces TriFace.region exC8Faces [] [] = exC8Faces :=
  ⟨(claim_C8 TriFace.region exC8Faces [3] [2]).1 (by decide),
   (claim_C8 TriFace.region exC8Faces [] []).2⟩

/-- Claim C1: the packed per-cell offset sequence is a single cumulative
stream over the node counts, continuous across the quad/triangle group
boundary: the first offset equals the first node count, and each later
offset differs from its predecessor by the node count of that cell. -/
theorem claim_C1 {node_id : List Nat} {tris : List TriFace}
    {quads : List QuadFace} {p : Packed}
    (h : _create_elements node_id tris quads = .ok p) :
    (0 < p.cell_offsets.length →
      p.cell_offsets.getD 0 0 = p.node_counts.getD 0 0)
  ∧ ∀ i, 0 < i → i < p.cell_offsets.length →
      p.cell_offsets.getD i 0 - p.cell_offsets.getD (i - 1) 0
        = p.node_counts.getD i 0 := by
  obtain ⟨hc, -, ho, -⟩ := create_elements_ok h
  have hco : p.cell_offsets = cumSum p.node_counts := by
    rw [ho, offsetsOfCounts_zero, ← hc]
  constructor
  · intro hpos
    have hne : p.node_counts ≠ [] := by
      rw [hco, cumSum_length] at hpos
      exact List.ne_nil_of_length_pos hpos
    rw [hco]
    exact cumSum_getD_zero _ hne
  · intro i hi hilen
    obtain ⟨j, rfl⟩ : ∃ j, i = j + 1 := ⟨i - 1, (Nat.succ_pred_eq_of_pos hi).symm⟩
    rw [hco, cumSum_length] at hilen
    rw [hco]
    rw [cumSum_getD_succ p.node_counts j hilen]
    simp [Nat.add_sub_cancel_left]

/-- Claim C5: the three parallel packed arrays all have one entry per
kept element (quads plus triangles), and the flat node-index buffer has
exactly the sum of the node counts. -/
theorem claim_C5 {node_id : List Nat} {tris : List TriFace}
    {quads : List QuadFace} {p : Packed}
    (h : _create_elements node_id tris quads = .ok p) :
    p.node_counts.length = quads.length + tris.length
  ∧ p.cell_types.length = quads.length + tris.length
  ∧ p.cell_offsets.length = quads.length + tris.length
  ∧ p.flat_node_indices.length = p.node_counts.sum := by
  obtain ⟨hc, ht, ho, hf⟩ := create_elements_ok h
  refine ⟨by simp [hc], by simp [ht], ?_, ?_⟩
  · simp [ho, offsetsOfCounts, cumSum_length]
  · rw [hf, hc]
    simp [List.length_flatMap, List.map_map, Function.comp_def, QuadFace.nodes,
      TriFace.nodes, List.sum_replicate, smul_eq_mul, Nat.mul_comm]

/-- For Nat, `min` always returns one of its arguments. -/
theorem natMinOr : ∀ a b : Nat, min a b = a ∨ min a b = b := fun a b =>
  (Nat.le_total a b).imp Nat.min_eq_left Nat.min_eq_right

/-- Claim C4: when a face references a node id absent from the node set
(all ids positive, node set non-empty), `_create_elements` fails with
the error naming the missing ids — every such offending id is in the
named list, the named list holds only genuinely missing ids, and no
packed output is produced. -/
theorem claim_C4 (node_id : List Nat) (tris : List TriFace) (quads : List QuadFace)
    (hpos : ∀ n ∈ node_id, 1 ≤ n)
    (hface : ∀ y ∈ (tris.map TriFace.nodes).flatten
        ++ (quads.map QuadFace.nodes).flatten, 1 ≤ y)
    (hne : node_id ≠ [])
    (x : Nat)
    (hx : x ∈ (tris.map TriFace.nodes).flatten
        ++ (quads.map QuadFace.nodes).flatten)
    (hmiss : x ∉ node_id) :
    ∃ ids, _create_elements node_id tris quads
        = Except.error (LoadError.missingNodes ids)
      ∧ x ∈ ids ∧ ids ≠ [] ∧ ∀ y ∈ ids, y ∉ node_id := by
  have hxall : x ∈ npUnique ((tris.map TriFace.nodes).flatten
      ++ (quads.map QuadFace.nodes).flatten) := List.mem_dedup.mpr hx
  have hxm : x ∈ (npUnique ((tris.map TriFace.nodes).flatten
      ++ (quads.map QuadFace.nodes).flatten)).filter
        (fun n => decide (n ∉ node_id)) :=
    List.mem_filter.mpr ⟨hxall, by simpa using hmiss⟩
  refine ⟨_, ?_, hxm, List.ne_nil_of_mem hxm, ?_⟩
  · simp only [_create_elements]
    split
    · next hm => exact absurd (List.min?_eq_none_iff.mp hm) hne
    · next m hm =>
      have hm1 : 1 ≤ m := hpos m (List.min?_mem natMinOr hm)
      rw [if_neg (by omega)]
      split
      · next hma =>
        rw [List.min?_eq_none_iff.mp hma] at hxall
        exact absurd hxall (List.not_mem_nil x)
      · next ma hma =>
        have hmamem := List.min?_mem natMinOr hma
        have hma1 : 1 ≤ ma := hface ma (List.mem_dedup.mp hmamem)
        rw [if_neg (by omega)]
        rw [if_pos (List.ne_nil_of_mem hxm)]
  · intro y hy
    have := (List.mem_filter.mp hy).2
    simpa using this

theorem claim_C1_witness :
    _create_elements exNodeIds exTris exQuads = Except.ok exPacked
  ∧ exPacked.node_counts = [4, 4, 3, 3, 3]
  ∧ exPacked.cell_offsets = [4, 8, 11, 14, 17]
  ∧ exPacked.cell_offsets.getD 0 0 = exPacked.node_counts.getD 0 0
  ∧ exPacked.cell_offsets.getD 2 0 - exPacked.cell_offsets.getD 1 0
      = exPacked.node_counts.getD 2 0 :=
  ⟨by decide, by decide, by decide,
   (claim_C1 (by decide : _create_elements exNodeIds exTris exQuads
      = Except.ok exPacked)).1 (by decide),
   (claim_C1 (by decide : _create_elements exNodeIds exTris exQuads
      = Except.ok exPacked)).2 2 (by decide) (by decide)⟩

theorem claim_C5_witness :
    _create_elements exNodeIds exTris exQuads = Except.ok exPacked
  ∧ exPacked.node_counts.length = exQuads.length + exTris.length
  ∧ exPacked.cell_types.length = exQuads.length + exTris.length
  ∧ exPacked.cell_offsets.length = exQuads.length + exTris.length
  ∧ exPacked.flat_node_indices.length = exPacked.node_counts.sum := by
  have h : _create_elements exNodeIds exTris exQuads = Except.ok exPacked := by decide
  obtain ⟨h1, h2, h3, h4⟩ := claim_C5 h
  exact ⟨h, h1, h2, h3, h4⟩

theorem claim_C4_witness :
    ∃ ids, _create_elements tenNodeIds badTris []
        = Except.error (LoadError.missingNodes ids)
      ∧ 999 ∈ ids ∧ ids ≠ [] ∧ ∀ y ∈ ids, y ∉ tenNodeIds :=
  claim_C4 tenNodeIds badTris [] (by decide) (by decide) (by decide)
    999 (by decide) (by decide)

/-- Claim C2: the filtered element-id array concatenates the kept
quadrilaterals first and the kept triangles second, and every derived
per-filtered-element array (region, area, centroid, normal, node count)
and the packed per-cell arrays follow the same quads-then-triangles
order. -/
theorem claim_C2 {lf pf : String → String → ℚ} {mag : Vec3 → ℚ}
    {rem inc : List Int} {model : FluentModel} {out : LoadOutput}
    (halign : model.results.length = model.quads.length + model.tris.length)
    (h : load_fluent_geometry lf pf mag rem inc model = .ok out) :
    out.element_id
      = (filterFaces QuadFace.region model.quads rem inc).map QuadFace.eid
        ++ (filterFaces TriFace.region model.tris rem inc).map TriFace.eid
  ∧ out.region
      = (filterFaces QuadFace.region model.quads rem inc).map QuadFace.region
        ++ (filterFaces TriFace.region model.tris rem inc).map TriFace.region
  ∧ out.area
      = (filterFaces QuadFace.region model.quads rem inc).map
          (quadArea mag (coordOf model))
        ++ (filterFaces TriFace.region model.tris rem inc).map
          (triArea mag (coordOf model))
  ∧ out.centroid
      = (filterFaces QuadFace.region model.quads rem inc).map
          (quadCentroid (coordOf model))
        ++ (filterFaces TriFace.region model.tris rem inc).map
          (triCentroid (coordOf model))
  ∧ out.normal
      = (filterFaces QuadFace.region model.quads rem inc).map
          (quadNormal mag (coordOf model))
        ++ (filterFaces TriFace.region model.tris rem inc).map
          (triNormal mag (coordOf model))
  ∧ out.nnodes_array
      = List.replicate (filterFaces QuadFace.region model.quads rem inc).length
          (4 : ℚ)
        ++ List.replicate (filterFaces TriFace.region model.tris rem inc).length
          (3 : ℚ)
  ∧ out.packed.node_counts
      = List.replicate (filterFaces QuadFace.region model.quads rem inc).length 4
        ++ List.replicate (filterFaces TriFace.region model.tris rem inc).length 3
  ∧ out.packed.cell_types
      = List.replicate (filterFaces QuadFace.region model.quads rem inc).length 9
        ++ List.replicate (filterFaces TriFace.region model.tris rem inc).length 5 := by
  obtain ⟨hid, hreg, harea, hcent, hnorm, hnn, -, -, hpk, -⟩ := load_ok_fields h
  have hq := filteredQuads_eq model rem inc halign
  have ht := filteredTris_eq model rem inc halign
  obtain ⟨hcounts, htypes, -, -⟩ := create_elements_ok hpk
  refine ⟨?_, ?_, ?_, ?_, ?_, ?_, ?_, ?_⟩
  · rw [hid, filteredElementId_eq, hq, ht]
  · rw [hreg, filteredRegion_eq, hq, ht]
  · rw [harea, hq, ht]
  · rw [hcent, hq, ht]
  · rw [hnorm, hq, ht]
  · rw [hnn, hq, ht]
    simp [mul_zero, List.map_map, Function.comp_def]
  · rw [hcounts, hq, ht]
  · rw [htypes, hq, ht]

theorem resultsColumn_length (i : Nat) (rows : List (List ℚ)) :
    (resultsColumn i rows).length = rows.length := by
  simp [resultsColumn]

theorem getD_drop_one {α : Type} (l : List α) (i : Nat) (d : α) :
    (l.drop 1).getD i d = l.getD (i + 1) d := by
  cases l <;> simp

theorem tail_getD {α : Type} (l : List α) (i : Nat) (d : α) :
    l.tail.getD i d = l.getD (i + 1) d := by
  cases l <;> simp

theorem column0_writeColumn0 (rows : List (List ℚ)) (vals : List ℚ)
    (h : vals.length = rows.length) :
    column0 (writeColumn0 rows vals) = vals := by
  induction vals generalizing rows with
  | nil => simp [writeColumn0, column0]
  | cons v vs ih =>
    cases rows with
    | nil => simp at h
    | cons r rs =>
      have h2 : vs.length = rs.length := by simpa using h
      have := ih rs h2
      simp only [column0, writeColumn0] at this ⊢
      simp only [List.zipWith_cons_cons, List.map_cons, List.headD_cons]
      rw [this]

theorem resultsColumn_writeColumn0 (rows : List (List ℚ)) (vals : List ℚ) (j : Nat)
    (h : vals.length = rows.length) :
    resultsColumn (j + 1) (writeColumn0 rows vals) = resultsColumn (j + 1) rows := by
  induction vals generalizing rows with
  | nil =>
    have : rows = [] := by
      cases rows with
      | nil => rfl
      | cons r rs => simp at h
    subst this
    simp [writeColumn0, resultsColumn]
  | cons v vs ih =>
    cases rows with
    | nil => simp at h
    | cons r rs =>
      have h2 : vs.length = rs.length := by simpa using h
      have := ih rs h2
      simp only [resultsColumn, writeColumn0] at this ⊢
      simp only [List.zipWith_cons_cons, List.map_cons]
      rw [List.getD_cons_succ, tail_getD, this]

theorem importedEntries_ok {element_ids : List Nat} {results : List (List ℚ)}
    {i : Nat} {titles : List String} {es : List CatalogEntry}
    (h : importedEntries element_ids results i titles = .ok es) :
    es.map CatalogEntry.name = titles
  ∧ es.length = titles.length
  ∧ (∀ e ∈ es, e.binding = Binding.centroid)
  ∧ ∀ j, j < titles.length →
      es.getD j dummyEntry
        = { name := titles.getD j "", binding := Binding.centroid,
            values := FieldData.ratData (resultsColumn (i + j) results) } := by
  induction titles generalizing i es with
  | nil =>
    simp only [importedEntries] at h
    injection h with h2
    subst h2
    simp
  | cons title rest ih =>
    simp only [importedEntries] at h
    split at h
    · split at h
      · next es2 hrec =>
        injection h with h2
        subst h2
        obtain ⟨m1, m2, m3, m4⟩ := ih hrec
        refine ⟨by simp [m1], by simp [m2], ?_, ?_⟩
        · intro e he
          rcases List.mem_cons.mp he with rfl | hmem
          · rfl
          · exact m3 e hmem
        · intro j hj
          cases j with
          | zero => simp
          | succ k =>
            have hk : k < rest.length := by simpa using hj
            have hidx : i + 1 + k = i + (k + 1) := by omega
            simp only [List.getD_cons_succ]
            rw [m4 k hk, hidx]
      · exact Except.noConfusion h
    · exact Except.noConfusion h

theorem importedEntries_exists {element_ids : List Nat} {results : List (List ℚ)}
    (hlen : element_ids.length = results.length) :
    ∀ i titles, ∃ es, importedEntries element_ids results i titles = .ok es := by
  intro i titles
  induction titles generalizing i with
  | nil => exact ⟨[], rfl⟩
  | cons t rest ih =>
    obtain ⟨es, hes⟩ := ih (i + 1)
    refine ⟨{ name := t, binding := Binding.centroid,
              values := FieldData.ratData (resultsColumn i results) } :: es, ?_⟩
    simp only [importedEntries]
    rw [if_pos (by rw [resultsColumn_length]; exact hlen)]
    rw [hes]

theorem fill_ok {node_ids element_ids : List Nat} {region : List Int}
    {results : List (List ℚ)} {titles : List String} {normal : List Vec3}
    {nnodes_array : List ℚ} {catalog : List CatalogEntry}
    (h : _fill_fluent_case node_ids element_ids region results titles normal
        nnodes_array = .ok catalog) :
    ∃ imported,
      importedEntries element_ids results 0 (titles.drop 1) = .ok imported
      ∧ catalog
          = [{ name := "NodeID", binding := Binding.node,
               values := FieldData.natData node_ids },
             { name := "ElementID", binding := Binding.centroid,
               values := FieldData.natData element_ids },
             { name := "Region", binding := Binding.centroid,
               values := FieldData.intData region },
             normalResultEntry,
             { name := "NormalX", binding := Binding.centroid,
               values := FieldData.ratData (normal.map Vec3.x) },
             { name := "NormalY", binding := Binding.centroid,
               values := FieldData.ratData (normal.map Vec3.y) },
             { name := "NormalZ", binding := Binding.centroid,
               values := FieldData.ratData (normal.map Vec3.z) },
             { name := "Nnodes", binding := Binding.centroid,
               values := FieldData.ratData nnodes_array }] ++ imported
      ∧ element_ids.length = region.length := by
  simp only [_fill_fluent_case] at h
  split at h
  · simp at h
  · next hlen =>
    split at h
    · next imported hrec =>
      injection h with h2
      exact ⟨imported, hrec, h2.symm, by omega⟩
    · simp at h

/-- Claim C3: the assembled catalog lists, in order, the node-id field,
element-id field, region field, the normal bundle (composite entry then
the three components), the node-count field, and then one entry per
imported title in declared order starting from the second title, with
imported column `i` paired with title `i+1`. -/
theorem claim_C3 {node_ids element_ids : List Nat} {region : List Int}
    {results : List (List ℚ)} {titles : List String} {normal : List Vec3}
    {nnodes_array : List ℚ} {catalog : List CatalogEntry}
    (h : _fill_fluent_case node_ids element_ids region results titles normal
        nnodes_array = .ok catalog) :
    catalog.map CatalogEntry.name
      = ["NodeID", "ElementID", "Region", "Normal", "NormalX", "NormalY",
         "NormalZ", "Nnodes"] ++ titles.drop 1
  ∧ ∀ i, i + 1 < titles.length →
      catalog.getD (8 + i) dummyEntry
        = { name := titles.getD (i + 1) "", binding := Binding.centroid,
            values := FieldData.ratData (resultsColumn i results) } := by
  obtain ⟨imported, hrec, hcat, -⟩ := fill_ok h
  obtain ⟨m1, -, -, m4⟩ := importedEntries_ok hrec
  constructor
  · rw [hcat]
    simp [m1, normalResultEntry]
  · intro i hi
    have hi2 : i < (titles.drop 1).length := by
      rw [List.length_drop]; omega
    rw [hcat]
    have happ := getD_append_add
      [{ name := "NodeID", binding := Binding.node,
         values := FieldData.natData node_ids },
       { name := "ElementID", binding := Binding.centroid,
         values := FieldData.natData element_ids },
       { name := "Region", binding := Binding.centroid,
         values := FieldData.intData region },
       normalResultEntry,
       { name := "NormalX", binding := Binding.centroid,
         values := FieldData.ratData (normal.map Vec3.x) },
       { name := "NormalY", binding := Binding.centroid,
         values := FieldData.ratData (normal.map Vec3.y) },
       { name := "NormalZ", binding := Binding.centroid,
         values := FieldData.ratData (normal.map Vec3.z) },
       { name := "Nnodes", binding := Binding.centroid,
         values := FieldData.ratData nnodes_array }] imported i dummyEntry
    simp only [List.length_cons, List.length_nil] at happ
    rw [happ, m4 i hi2, getD_drop_one]
    simp

theorem claim_C3_witness :
    _fill_fluent_case [1] [7] [2] [[3, 5]] ["skip", "A", "B"]
        [⟨0, 0, 1⟩] [4] = .ok exCatalog
  ∧ exCatalog.map CatalogEntry.name
      = ["NodeID", "ElementID", "Region", "Normal", "NormalX", "NormalY",
         "NormalZ", "Nnodes"] ++ (["skip", "A", "B"] : List String).drop 1
  ∧ exCatalog.getD (8 + 0) dummyEntry
      = { name := (["skip", "A", "B"] : List String).getD (0 + 1) "",
          binding := Binding.centroid,
          values := FieldData.ratData (resultsColumn 0 [[3, 5]]) } := by
  have h : _fill_fluent_case [1] [7] [2] [[3, 5]] ["skip", "A", "B"]
      [⟨0, 0, 1⟩] [4] = .ok exCatalog := by decide
  exact ⟨h, (claim_C3 h).1, (claim_C3 h).2 0 (by decide)⟩

/-- Claim C6: the field assembler fails with a length-mismatch error
whenever the element-id array length differs from the region array
length, or (when at least one imported field exists) from the results
row count; it succeeds when both lengths agree.  The width hypothesis
records that `results` is a rectangular array whose columns are the
declared titles minus the reserved first one. -/
theorem claim_C6 (node_ids element_ids : List Nat) (region : List Int)
    (results : List (List ℚ)) (titles : List String) (normal : List Vec3)
    (nnodes_array : List ℚ)
    (hw : ∀ row ∈ results, row.length = titles.length - 1) :
    (element_ids.length = region.length ∧ element_ids.length = results.length →
      ∃ catalog, _fill_fluent_case node_ids element_ids region results titles
          normal nnodes_array = .ok catalog)
  ∧ (element_ids.length ≠ region.length →
      ∃ a b, _fill_fluent_case node_ids element_ids region results titles
          normal nnodes_array = .error (LoadError.fieldLengthMismatch a b))
  ∧ (2 ≤ titles.length → element_ids.length ≠ results.length →
      ∃ a b, _fill_fluent_case node_ids element_ids region results titles
          normal nnodes_array = .error (LoadError.fieldLengthMismatch a b)) := by
  refine ⟨?_, ?_, ?_⟩
  · rintro ⟨hr, hres⟩
    obtain ⟨es, hes⟩ := importedEntries_exists hres 0 (titles.drop 1)
    refine ⟨[{ name := "NodeID", binding := Binding.node,
               values := FieldData.natData node_ids },
             { name := "ElementID", binding := Binding.centroid,
               values := FieldData.natData element_ids },
             { name := "Region", binding := Binding.centroid,
               values := FieldData.intData region },
             normalResultEntry,
             { name := "NormalX", binding := Binding.centroid,
               values := FieldData.ratData (normal.map Vec3.x) },
             { name := "NormalY", binding := Binding.centroid,
               values := FieldData.ratData (normal.map Vec3.y) },
             { name := "NormalZ", binding := Binding.centroid,
               values := FieldData.ratData (normal.map Vec3.z) },
             { name := "Nnodes", binding := Binding.centroid,
               values := FieldData.ratData nnodes_array }] ++ es, ?_⟩
    simp only [_fill_fluent_case]
    rw [if_neg (by omega)]
    rw [hes]
  · intro hne
    refine ⟨element_ids.length, region.length, ?_⟩
    simp only [_fill_fluent_case]
    rw [if_pos hne]
  · intro ht hne
    by_cases hr : element_ids.length = region.length
    · obtain ⟨t0, t1, rest, rfl⟩ : ∃ t0 t1 rest, titles = t0 :: t1 :: rest := by
        cases titles with
        | nil => simp at ht
        | cons t0 ts =>
          cases ts with
          | nil => simp at ht
          | cons t1 rest => exact ⟨t0, t1, rest, rfl⟩
      refine ⟨element_ids.length, results.length, ?_⟩
      simp only [_fill_fluent_case]
      rw [if_neg (by omega)]
      simp only [List.drop_succ_cons, List.drop_zero, importedEntries]
      rw [if_neg (by rw [resultsColumn_length]; exact hne)]
      rw [resultsColumn_length]
    · refine ⟨element_ids.length, region.length, ?_⟩
      simp only [_fill_fluent_case]
      rw [if_pos hr]

theorem claim_C6_witness :
    (∃ a b, _fill_fluent_case [] [1, 2, 3, 4, 5, 6, 7, 8, 9, 10]
        (List.replicate 10 (1 : Int)) (List.replicate 9 [0]) ["skip", "A"] [] []
        = .error (LoadError.fieldLengthMismatch a b))
  ∧ (∃ catalog, _fill_fluent_case [] [1] [1] [[2]] ["skip", "A"] [] []
        = .ok catalog) := by
  constructor
  · exact (claim_C6 [] [1, 2, 3, 4, 5, 6, 7, 8, 9, 10]
      (List.replicate 10 (1 : Int)) (List.replicate 9 [0]) ["skip", "A"] [] []
      (by decide)).2.2 (by decide) (by decide)
  · exact (claim_C6 [] [1] [1] [[2]] ["skip", "A"] [] []
      (by decide)).1 ⟨by decide, by decide⟩

/-- Claim C9: on every successful load the node coordinates are rescaled
by the fixed meter-to-inch factor, exactly result column 0 is rescaled
by the fixed Pa-to-psi factor, and every other imported column reaches
the field catalog unchanged; the unit names are literals, independent of
the configured filter lists. -/
theorem claim_C9 {lf pf : String → String → ℚ} {mag : Vec3 → ℚ}
    {rem inc : List Int} {model : FluentModel} {out : LoadOutput}
    (h : load_fluent_geometry lf pf mag rem inc model = .ok out) :
    out.nodes = model.xyz.map (Vec3.smul (lf "m" "in"))
  ∧ column0 out.results
      = (column0 (filteredResults model rem inc)).map (fun v => pf "Pa" "psi" * v)
  ∧ (∀ j, resultsColumn (j + 1) out.results
      = resultsColumn (j + 1) (filteredResults model rem inc))
  ∧ ∀ i, i + 1 < model.titles.length →
      (out.catalog.getD (8 + i) dummyEntry).values
        = FieldData.ratData (resultsColumn i out.results) := by
  obtain ⟨-, -, -, -, -, -, hnodes, hres, -, hcat⟩ := load_ok_fields h
  have hvlen : (convert_pressure pf (column0 (filteredResults model rem inc))
      "Pa" "psi").length = (filteredResults model rem inc).length := by
    simp [convert_pressure, column0]
  refine ⟨?_, ?_, ?_, ?_⟩
  · rw [hnodes]; rfl
  · rw [hres, column0_writeColumn0 _ _ hvlen]
    rfl
  · intro j
    rw [hres, resultsColumn_writeColumn0 _ _ j hvlen]
  · intro i hi
    obtain ⟨imported, hrec, hcatal, -⟩ := fill_ok hcat
    obtain ⟨-, -, -, m4⟩ := importedEntries_ok hrec
    have hi2 : i < (model.titles.drop 1).length := by
      rw [List.length_drop]; omega
    rw [hcatal]
    have happ := getD_append_add
      [{ name := "NodeID", binding := Binding.node,
         values := FieldData.natData model.node_id },
       { name := "ElementID", binding := Binding.centroid,
         values := FieldData.natData (filteredElementId model rem inc) },
       { name := "Region", binding := Binding.centroid,
         values := FieldData.intData (filteredRegion model rem inc) },
       normalResultEntry,
       { name := "NormalX", binding := Binding.centroid,
         values := FieldData.ratData (out.normal.map Vec3.x) },
       { name := "NormalY", binding := Binding.centroid,
         values := FieldData.ratData (out.normal.map Vec3.y) },
       { name := "NormalZ", binding := Binding.centroid,
         values := FieldData.ratData (out.normal.map Vec3.z) },
       { name := "Nnodes", binding := Binding.centroid,
         values := FieldData.ratData out.nnodes_array }] imported i dummyEntry
    simp only [List.length_cons, List.length_nil] at happ
    rw [happ, m4 i hi2]
    simp

/-- Claim C10: in every assembled catalog exactly the leading node-id
entry is node-bound and every other entry is centroid-bound; the
node-count field holds 4 for each kept quadrilateral and 3 for each
kept triangle. -/
theorem claim_C10 {lf pf : String → String → ℚ} {mag : Vec3 → ℚ}
    {rem inc : List Int} {model : FluentModel} {out : LoadOutput}
    (halign : model.results.length = model.quads.length + model.tris.length)
    (h : load_fluent_geometry lf pf mag rem inc model = .ok out) :
    out.catalog.map CatalogEntry.binding
      = Binding.node :: List.replicate (out.catalog.length - 1) Binding.centroid
  ∧ (out.catalog.getD 0 dummyEntry).name = "NodeID"
  ∧ (out.catalog.getD 0 dummyEntry).binding = Binding.node
  ∧ out.catalog.getD 7 dummyEntry
      = { name := "Nnodes", binding := Binding.centroid,
          values := FieldData.ratData out.nnodes_array }
  ∧ out.nnodes_array
      = List.replicate (filterFaces QuadFace.region model.quads rem inc).length
          (4 : ℚ)
        ++ List.replicate (filterFaces TriFace.region model.tris rem inc).length
          (3 : ℚ) := by
  obtain ⟨-, -, -, -, -, hnn, -, -, -, hcat⟩ := load_ok_fields h
  obtain ⟨imported, hrec, hcatal, -⟩ := fill_ok hcat
  obtain ⟨-, -, m3, -⟩ := importedEntries_ok hrec
  have himp : imported.map CatalogEntry.binding
      = List.replicate imported.length Binding.centroid := by
    have := List.eq_replicate_of_mem (l := imported.map CatalogEntry.binding)
      (a := Binding.centroid) (by
        intro b hb
        obtain ⟨e, he, rfl⟩ := List.mem_map.mp hb
        exact m3 e he)
    simpa using this
  refine ⟨?_, ?_, ?_, ?_, ?_⟩
  · rw [hcatal]
    simp only [List.cons_append, List.nil_append, List.map_cons,
      normalResultEntry, List.length_cons, List.map_append, himp]
    have hlen7 : imported.length + 1 + 1 + 1 + 1 + 1 + 1 + 1 + 1 - 1
        = 7 + imported.length := by omega
    rw [hlen7, List.replicate_add]
    simp [List.replicate_succ]
  · rw [hcatal]; rfl
  · rw [hcatal]; rfl
  · rw [hcatal]
    simp [List.getD_cons_succ, List.getD_cons_zero]
  · rw [hnn, filteredQuads_eq model rem inc halign, filteredTris_eq model rem inc halign]
    simp [mul_zero, List.map_map, Function.comp_def]

theorem nodup_iff_dedup_length (l : List Nat) :
    l.Nodup ↔ (npUnique l).length = l.length := by
  constructor
  · intro h
    rw [npUnique, List.dedup_eq_self.mpr h]
  · intro h
    have : l.dedup = l := List.Sublist.eq_of_length (List.dedup_sublist l) h
    rw [← this]
    exact l.nodup_dedup

/-- Claim C7 (amended): for every input within the documented reader
interface (the reserved first title plus at least one imported title,
and a rectangular results array with one column per imported title, so
the column-0 rescale at line 68 is in bounds and cannot fail first), a
duplicate node id makes the load fail with a fatal error raised before
any packing work begins, aborting the load entirely; the raised error,
a bare assertion, names no ids. -/
theorem claim_C7 (lf pf : String → String → ℚ) (mag : Vec3 → ℚ)
    (rem inc : List Int) (model : FluentModel)
    (_hti : 2 ≤ model.titles.length)
    (_hw : ∀ row ∈ model.results, row.length = model.titles.length - 1)
    (hdup : ¬ model.node_id.Nodup) :
    load_fluent_geometry lf pf mag rem inc model
      = .error LoadError.duplicateNodeIds
  ∧ LoadError.duplicateNodeIds.namedIds = [] := by
  refine ⟨?_, rfl⟩
  have hlen := filtered_id_region_length model rem inc
  simp only [filteredElementId, filteredRegion] at hlen
  have hd : (npUnique model.node_id).length ≠ model.node_id.length :=
    fun hc => hdup ((nodup_iff_dedup_length model.node_id).mpr hc)
  simp only [load_fluent_geometry]
  rw [if_neg (not_ne_iff.mpr hlen), if_pos hd]

theorem claim_C7_counterexample :
    2 ≤ dupModel.titles.length
  ∧ (∀ row ∈ dupModel.results, row.length = dupModel.titles.length - 1)
  ∧ (1 : Nat) ∈ dupModel.node_id
  ∧ ¬ dupModel.node_id.Nodup
  ∧ load_fluent_geometry oneFactor oneFactor oneMag [] [] dupModel
      = .error LoadError.duplicateNodeIds
  ∧ (1 : Nat) ∉ LoadError.duplicateNodeIds.namedIds := by
  refine ⟨by decide, by decide, by decide, by decide, by decide, by decide⟩

theorem claim_C7_witness :
    load_fluent_geometry oneFactor oneFactor oneMag [] [] dupModel
      = .error LoadError.duplicateNodeIds
  ∧ LoadError.duplicateNodeIds.namedIds = [] :=
  claim_C7 oneFactor oneFactor oneMag [] [] dupModel (by decide) (by decide) (by decide)

theorem claim_C2_witness :
    okModel.results.length = okModel.quads.length + okModel.tris.length
  ∧ load_fluent_geometry oneFactor oneFactor oneMag [] [] okModel
      = Except.ok okOut
  ∧ okOut.element_id
      = (filterFaces QuadFace.region okModel.quads [] []).map QuadFace.eid
        ++ (filterFaces TriFace.region okModel.tris [] []).map TriFace.eid
  ∧ okOut.packed.cell_types
      = List.replicate (filterFaces QuadFace.region okModel.quads [] []).length 9
        ++ List.replicate (filterFaces TriFace.region okModel.tris [] []).length 5 := by
  have h : load_fluent_geometry oneFactor oneFactor oneMag [] [] okModel
      = Except.ok okOut := rfl
  exact ⟨by decide, h, (claim_C2 (by decide) h).1, (claim_C2 (by decide) h).2.2.2.2.2.2.2⟩

theorem claim_C9_witness :
    load_fluent_geometry oneFactor oneFactor oneMag [] [] okModel
      = Except.ok okOut
  ∧ okOut.nodes = okModel.xyz.map (Vec3.smul (oneFactor "m" "in"))
  ∧ column0 okOut.results
      = (column0 (filteredResults okModel [] [])).map
          (fun v => oneFactor "Pa" "psi" * v) := by
  have h : load_fluent_geometry oneFactor oneFactor oneMag [] [] okModel
      = Except.ok okOut := rfl
  exact ⟨h, (claim_C9 h).1, (claim_C9 h).2.1⟩

theorem claim_C10_witness :
    load_fluent_geometry oneFactor oneFactor oneMag [] [] okModel
      = Except.ok okOut
  ∧ okOut.catalog.map CatalogEntry.binding
      = Binding.node
        :: List.replicate (okOut.catalog.length - 1) Binding.centroid
  ∧ okOut.nnodes_array
      = List.replicate (filterFaces QuadFace.region okModel.quads [] []).length
          (4 : ℚ)
        ++ List.replicate (filterFaces TriFace.region okModel.tris [] []).length
          (3 : ℚ) := by
  have h : load_fluent_geometry oneFactor oneFactor oneMag [] [] okModel
      = Except.ok okOut := rfl
  exact ⟨h, (claim_C10 (by decide) h).1, (claim_C10 (by decide) h).2.2.2.2⟩
